import Mathlib

/-!
Verification of the HealthApp triage backend (`src/backend/streamlit_app.py`).

The Python source is shallowly embedded below:
* JSON request fields that may be absent are `Option`-valued;
* Python `float` confidences/probabilities are modelled as `ℚ`,
  geographic quantities as `ℝ`;
* wall-clock time is an explicit `Nat` parameter measured in minutes;
* the process-wide `verification_codes` dict is a `List (String × Entry)`
  with Python-dict operations (unique keys by construction, insertion
  order preserved);
* the three optional pickled ML models are external objects, so each
  `model.predict` call is represented by its outcome: the model may be
  absent (`none`), raise (`PredictOutcome.error`), or return a value.
-/

set_option autoImplicit false

namespace HealthApp

/-- The fields of the `analyze-symptoms` request body that the backend
reads (`patient_data` in the source).  `none` models an absent JSON key
(Python `data.get(k)` returning `None`). -/
structure PatientData where
  name : Option String
  age : Option Int
  symptoms : Option String
  locationConsent : Bool
deriving Repr, DecidableEq

/-- `symptom_mapping` from `prepare_features` (lines 162-168). -/
def symptom_mapping : List (String × Int) :=
  [("chest_pain", 0), ("difficulty_breathing", 1), ("severe_bleeding", 2),
   ("head_injury", 3), ("fever", 4), ("abdominal_pain", 5),
   ("allergic_reaction", 6), ("stroke_symptoms", 7), ("burn", 8),
   ("fracture", 9), ("headache", 10), ("rash", 11),
   ("cough", 12), ("nausea", 13), ("dizziness", 14)]

/-- The 15-value symptom enum: the keys of `symptom_mapping`. -/
def symptom_enum : List String := symptom_mapping.map Prod.fst

/-- The feature dict built by `prepare_features` (lines 170-177). -/
structure FeatureVector where
  age : Int
  symptom_encoded : Int
  has_location_consent : Nat
  hour_of_day : Nat
  is_weekend : Nat
deriving Repr, DecidableEq

/-- `prepare_features(patient_data)` (lines 159-179).  The current
wall-clock hour and weekday are ambient inputs of the source
(`datetime.now()`), passed here explicitly. -/
def prepare_features (patient_data : PatientData) (hour : Nat)
    (weekend : Bool) : FeatureVector :=
  { age := patient_data.age.getD 30,
    symptom_encoded :=
      (patient_data.symptoms.bind (fun s => symptom_mapping.lookup s)).getD (-1),
    has_location_consent := if patient_data.locationConsent then 1 else 0,
    hour_of_day := hour,
    is_weekend := if weekend then 1 else 0 }

/-- `high_emergency_symptoms` (lines 260-261). -/
def high_emergency_symptoms : List String :=
  ["chest_pain", "difficulty_breathing", "severe_bleeding",
   "head_injury", "allergic_reaction", "stroke_symptoms"]

/-- `fallback_emergency_level(patient_data)` (lines 258-271).  The source
also reads `age` (with default 30) but never uses it; the unused read is
kept. -/
def fallback_emergency_level (patient_data : PatientData) : String :=
  let symptom := patient_data.symptoms
  let _age := patient_data.age.getD 30
  if symptom.any (fun s => s ∈ high_emergency_symptoms) then "HIGH"
  else if symptom.any (fun s => s ∈ ["fever", "abdominal_pain", "fracture"]) then "MEDIUM"
  else "LOW"

/-- `symptom_specialty_map` (lines 275-284). -/
def symptom_specialty_map : List (String × String) :=
  [("chest_pain", "Cardiologist"),
   ("difficulty_breathing", "Pulmonologist"),
   ("head_injury", "Neurologist"),
   ("abdominal_pain", "Gastroenterologist"),
   ("fracture", "Orthopedist"),
   ("allergic_reaction", "Allergist"),
   ("burn", "Dermatologist"),
   ("rash", "Dermatologist")]

/-- `fallback_specialty(patient_data)` (lines 273-286). -/
def fallback_specialty (patient_data : PatientData) : String :=
  ((patient_data.symptoms.bind
      (fun s => symptom_specialty_map.lookup s)).getD "General Practitioner")

/-- `fallback_appointment_time(emergency_level)` (lines 288-295). -/
def fallback_appointment_time (emergency_level : String) : String :=
  if emergency_level = "HIGH" then "Immediate - Emergency Room"
  else if emergency_level = "MEDIUM" then "Today - Urgent Care"
  else "Within 2-3 days"

/-- `get_urgency_text(emergency_level)` (lines 306-313). -/
def get_urgency_text (emergency_level : String) : String :=
  (([("HIGH", "URGENT - SEEK IMMEDIATE CARE"),
     ("MEDIUM", "SEEK CARE TODAY"),
     ("LOW", "SCHEDULE APPOINTMENT")].lookup emergency_level)).getD
    "CONSULT HEALTHCARE PROVIDER"

/-- Python `int()` truncation toward zero on a rational. -/
def pyInt (q : ℚ) : Int := q.num.tdiv q.den

/-- `format_wait_time(minutes)` (lines 297-304). -/
def format_wait_time (minutes : ℚ) : String :=
  if minutes < 60 then s!"Within {pyInt minutes} minutes"
  else if minutes < 120 then s!"Within {pyInt (minutes / 60)} hour"
  else s!"Within {pyInt (minutes / 60)} hours"

/-- Python list indexing `xs[i]`: negative indices count from the end,
an out-of-range index raises `IndexError` (modelled as `none`). -/
def pyListGet {α : Type} (xs : List α) (i : Int) : Option α :=
  let j := if i < 0 then i + xs.length else i
  if 0 ≤ j then xs.get? j.toNat else none

/-- `emergency_levels` (line 194). -/
def emergency_levels : List String := ["LOW", "MEDIUM", "HIGH"]

/-- `specialties` (lines 211-213). -/
def specialties : List String :=
  ["General Practitioner", "Cardiologist", "Pulmonologist",
   "Neurologist", "Gastroenterologist", "Dermatologist",
   "Orthopedist", "Allergist", "Emergency Physician"]

/-- Outcome of one `model.predict(...)` call on an external pickled
model: the call either returns a value or raises. -/
inductive PredictOutcome (α : Type) where
  | ok : α → PredictOutcome α
  | error : PredictOutcome α
deriving Repr, DecidableEq

/-- The three optional models (`emergency_model`, `specialty_model`,
`wait_time_model`, lines 20-42).  `none` models a model that failed to
load (the `None` global); otherwise the field carries the outcome of the
predict call the orchestrator makes on it: for the emergency model the
predicted class `predict(...)[0]` together with the probability row
`predict_proba(...)[0]`, for the specialty model the predicted class,
for the wait-time model the predicted minutes. -/
structure Models where
  emergency : Option (PredictOutcome (Int × List ℚ))
  specialty : Option (PredictOutcome Int)
  wait_time : Option (PredictOutcome ℚ)

/-- Emergency-level part of `get_ml_predictions` (lines 185-204):
on success decode `emergency_levels[emergency_pred]` (plain indexing, no
clamping) and take `max(emergency_proba)` as confidence; any exception in
the `try` block (absent model, predict failure, `IndexError` from the
decode, `max` on an empty row) selects
`fallback_emergency_level(patient_data)` with confidence 0.5. -/
def emergencyBranch (outcome : Option (PredictOutcome (Int × List ℚ)))
    (patient_data : PatientData) : String × ℚ :=
  match outcome with
  | some (.ok (pred, proba)) =>
    match pyListGet emergency_levels pred, proba.max? with
    | some lvl, some conf => (lvl, conf)
    | _, _ => (fallback_emergency_level patient_data, 1/2)
  | some .error => (fallback_emergency_level patient_data, 1/2)
  | none => (fallback_emergency_level patient_data, 1/2)

/-- Specialty part of `get_ml_predictions` (lines 207-219):
`specialties[min(specialty_pred, len(specialties)-1)]` — clamped above
only; a negative index wraps or raises, and any exception selects
`fallback_specialty(patient_data)`. -/
def specialtyBranch (outcome : Option (PredictOutcome Int))
    (patient_data : PatientData) : String :=
  match outcome with
  | some (.ok pred) =>
    match pyListGet specialties (min pred ((specialties.length : Int) - 1)) with
    | some s => s
    | none => fallback_specialty patient_data
  | some .error => fallback_specialty patient_data
  | none => fallback_specialty patient_data

/-- Wait-time part of `get_ml_predictions` (lines 222-231): on success
format the predicted minutes, otherwise fall back using the
emergency level already placed in the results dict. -/
def waitBranch (outcome : Option (PredictOutcome ℚ))
    (emergency_level : String) : String :=
  match outcome with
  | some (.ok minutes) => format_wait_time minutes
  | some .error => fallback_appointment_time emergency_level
  | none => fallback_appointment_time emergency_level

/-- The results dict returned by `get_ml_predictions` (the `timestamp`
field, a wall-clock string, is omitted). -/
structure AssessmentResults where
  emergencyLevel : String
  confidence : ℚ
  recommendedDoctor : String
  appointmentTime : String
  emergencyClass : String
  badgeClass : String
  urgencyText : String
deriving Repr, DecidableEq

/-- `get_ml_predictions(features, patient_data)` (lines 181-241).  The
`features` argument only flows into the external `model.predict` calls,
whose outcomes are carried by `models`; every other use of patient input
reads `patient_data` directly, as in the source. -/
def get_ml_predictions (models : Models) (patient_data : PatientData) :
    AssessmentResults :=
  let ec := emergencyBranch models.emergency patient_data
  let doctor := specialtyBranch models.specialty patient_data
  let appt := waitBranch models.wait_time ec.1
  { emergencyLevel := ec.1,
    confidence := ec.2,
    recommendedDoctor := doctor,
    appointmentTime := appt,
    emergencyClass := "emergency-" ++ ec.1.toLower,
    badgeClass := "badge-" ++ ec.1.toLower,
    urgencyText := get_urgency_text ec.1 }

/-- All three model globals are `None` (every pickle load failed). -/
def noModels : Models := ⟨none, none, none⟩

/-! ## Verification code store

The process-wide dict `verification_codes` (line 45), keyed by contact
string.  Time is a `Nat` in minutes. -/

/-- One value of the `verification_codes` dict.  `send-verification`
(lines 83-87) stores `{'code', 'expires', 'patient_id'}`;
`resend-code` (lines 401-404) stores only `{'code', 'expires'}`.
`patient_id = none` models the key being absent from the dict (the
resend shape); `patient_id = some v` models the key present with the
request's `patientId` value `v` (itself `none` when the request body
lacked it). -/
structure Entry where
  code : String
  expires : Nat
  patient_id : Option (Option String)
deriving Repr, DecidableEq

/-- The `verification_codes` dict: key-value pairs in insertion order. -/
abbrev Store := List (String × Entry)

/-- Python `d.get(k)`. -/
def dictGet (store : Store) (k : String) : Option Entry :=
  store.lookup k

/-- Python `d[k] = v`: replace the value in place if the key is present
(insertion order kept), otherwise append the new pair. -/
def dictSet (store : Store) (k : String) (v : Entry) : Store :=
  if store.any (fun p => p.1 = k) then
    store.map (fun p => if p.1 = k then (k, v) else p)
  else store ++ [(k, v)]

/-- Python `del d[k]`. -/
def dictDel (store : Store) (k : String) : Store :=
  store.filter (fun p => p.1 ≠ k)

/-- The store mutation of `send_verification_code` (lines 70-109): store
`{'code': code, 'expires': now + 10 minutes, 'patient_id': patientId}`
under `contact`, overwriting any prior entry.  The generated code and the
request fields are parameters. -/
def send_verification_code (store : Store) (now : Nat)
    (contact code : String) (patientId : Option String) : Store :=
  dictSet store contact
    { code := code, expires := now + 10, patient_id := some patientId }

/-- The store mutation of `resend_code` (lines 389-416): store
`{'code': code, 'expires': now + 10 minutes}` under `contact` — no
`patient_id` key. -/
def resend_code (store : Store) (now : Nat) (contact code : String) : Store :=
  dictSet store contact
    { code := code, expires := now + 10, patient_id := none }

/-- The JSON body of a `verify-code` response: the `verified` flag and
the accompanying `message`/`error` text. -/
structure VerifyResult where
  verified : Bool
  message : String
deriving Repr, DecidableEq

/-- `verify_code()` (lines 111-137): look up the contact; no entry →
"No verification code found"; `now > expires` → delete, "Verification
code expired"; matching code → delete, verified; otherwise entry kept,
"Invalid verification code".  Returns the response and the store after
the call. -/
def verify_code (store : Store) (now : Nat) (contact code : String) :
    VerifyResult × Store :=
  match dictGet store contact with
  | none => (⟨false, "No verification code found"⟩, store)
  | some entry =>
    if now > entry.expires then
      (⟨false, "Verification code expired"⟩, dictDel store contact)
    else if entry.code = code then
      (⟨true, "Verification successful"⟩, dictDel store contact)
    else
      (⟨false, "Invalid verification code"⟩, store)

/-- One request touching the verification store. -/
inductive StoreOp where
  | send (now : Nat) (contact code : String) (patientId : Option String)
  | resend (now : Nat) (contact code : String)
  | verify (now : Nat) (contact code : String)

/-- Apply one request to the store. -/
def applyOp (store : Store) (op : StoreOp) : Store :=
  match op with
  | .send now contact code patientId =>
      send_verification_code store now contact code patientId
  | .resend now contact code => resend_code store now contact code
  | .verify now contact code => (verify_code store now contact code).2

/-- Run a sequence of requests against the initially empty store
(`verification_codes = {}`, line 45). -/
def runOps (ops : List StoreOp) : Store :=
  ops.foldl applyOp []

/-! ## Verification code generation

`code = ''.join([str(np.random.randint(0, 9)) for _ in range(6)])`
(line 80, and identically line 398). -/

/-- `np.random.randint(low, high)`: a sample from the integers in
`[low, high)` — the upper bound is exclusive.  The underlying draw is an
arbitrary natural; as `draw` ranges over `Nat` the result ranges over
exactly `low, ..., high - 1`. -/
def np_random_randint (low high draw : Nat) : Nat :=
  low + draw % (high - low)

/-- The 6-character code built on line 80 (and line 398): concatenation
of `str(np.random.randint(0, 9))` over six independent draws. -/
def gen_code (draws : Fin 6 → Nat) : String :=
  String.join ((List.finRange 6).map
    (fun i => toString (np_random_randint 0 9 (draws i))))

/-! ## Haversine distance -/

/-- `np.radians`. -/
noncomputable def radians (x : ℝ) : ℝ := x * Real.pi / 180

/-- `np.arctan2(y, x)` (real-valued). -/
noncomputable def arctan2 (y x : ℝ) : ℝ :=
  if 0 < x then Real.arctan (y / x)
  else if x < 0 then
    (if 0 ≤ y then Real.arctan (y / x) + Real.pi
     else Real.arctan (y / x) - Real.pi)
  else
    (if 0 < y then Real.pi / 2
     else if y < 0 then -(Real.pi / 2)
     else 0)

/-- `calculate_distance(lat1, lon1, lat2, lon2)` (lines 352-365): the
Haversine great-circle distance in miles, Earth radius 3958.8, over the
reals. -/
noncomputable def calculate_distance (lat1 lon1 lat2 lon2 : ℝ) : ℝ :=
  let R : ℝ := 3958.8
  let lat1r := radians lat1
  let lon1r := radians lon1
  let lat2r := radians lat2
  let lon2r := radians lon2
  let dlat := lat2r - lat1r
  let dlon := lon2r - lon1r
  let a := Real.sin (dlat / 2) ^ 2 +
    Real.cos lat1r * Real.cos lat2r * Real.sin (dlon / 2) ^ 2
  let c := 2 * arctan2 (Real.sqrt a) (Real.sqrt (1 - a))
  R * c

/-! ## Theorems -/

/-- The emergency-level table as the spec states it, as a function of
the symptom field alone: the six high-emergency symptoms map to HIGH,
{fever, abdominal_pain, fracture} to MEDIUM, everything else (unknown
symptom strings and an absent symptom field alike) to LOW. -/
def spec_emergency_level (symptom : Option String) : String :=
  match symptom with
  | some s =>
    if s ∈ (["chest_pain", "difficulty_breathing", "severe_bleeding",
             "head_injury", "allergic_reaction", "stroke_symptoms"] : List String) then "HIGH"
    else if s ∈ (["fever", "abdominal_pain", "fracture"] : List String) then "MEDIUM"
    else "LOW"
  | none => "LOW"

theorem fallback_emergency_level_eq_spec (pd : PatientData) :
    fallback_emergency_level pd = spec_emergency_level pd.symptoms := by
  rcases pd with ⟨n, a, s, c⟩
  cases s with
  | none => rfl
  | some s =>
    by_cases h1 : s ∈ (["chest_pain", "difficulty_breathing", "severe_bleeding",
        "head_injury", "allergic_reaction", "stroke_symptoms"] : List String)
    · fin_cases h1 <;> rfl
    · by_cases h2 : s ∈ (["fever", "abdominal_pain", "fracture"] : List String)
      · fin_cases h2 <;> rfl
      · simp only [List.mem_cons, List.mem_singleton, not_or] at h1 h2
        obtain ⟨e1, e2, e3, e4, e5, e6⟩ := h1
        obtain ⟨f1, f2, f3⟩ := h2
        simp [fallback_emergency_level, spec_emergency_level, high_emergency_symptoms,
          e1, e2, e3, e4, e5, e6, f1, f2, f3]

/-- C1: an `analyze-symptoms` request with symptoms `"chest_pain"` and
age 45, when all three model globals are `None`, yields emergencyLevel
"HIGH", recommendedDoctor "Cardiologist", appointmentTime
"Immediate - Emergency Room", and confidence 0.5. -/
theorem C1_analyze_symptoms_no_models :
    (get_ml_predictions noModels
        ⟨none, some 45, some "chest_pain", false⟩).emergencyLevel = "HIGH" ∧
    (get_ml_predictions noModels
        ⟨none, some 45, some "chest_pain", false⟩).recommendedDoctor = "Cardiologist" ∧
    (get_ml_predictions noModels
        ⟨none, some 45, some "chest_pain", false⟩).appointmentTime =
      "Immediate - Emergency Room" ∧
    (get_ml_predictions noModels
        ⟨none, some 45, some "chest_pain", false⟩).confidence = 1/2 :=
  ⟨rfl, rfl, rfl, rfl⟩

/-- C2: `fallback_emergency_level` realises exactly the spec's table —
HIGH on the six high-emergency symptoms, MEDIUM on
{fever, abdominal_pain, fracture}, LOW otherwise (unknown symptoms and
an absent symptom field included). -/
theorem C2_fallback_emergency_table (pd : PatientData) :
    fallback_emergency_level pd = spec_emergency_level pd.symptoms :=
  fallback_emergency_level_eq_spec pd

/-- C8: `fallback_emergency_level` depends on the symptom field alone —
two patient inputs agreeing on symptoms (any ages, names, consent) get
the same level — and on every symptom of the known enum the level is one
of LOW, MEDIUM, HIGH. -/
theorem C8_level_pure_in_symptom (p1 p2 : PatientData)
    (h : p1.symptoms = p2.symptoms) :
    fallback_emergency_level p1 = fallback_emergency_level p2 ∧
    ∀ (pd : PatientData) (s : String), s ∈ symptom_enum → pd.symptoms = some s →
      fallback_emergency_level pd ∈ (["LOW", "MEDIUM", "HIGH"] : List String) := by
  refine ⟨?_, ?_⟩
  · rw [fallback_emergency_level_eq_spec, fallback_emergency_level_eq_spec, h]
  · intro pd s hs hsym
    rw [fallback_emergency_level_eq_spec, hsym]
    clear hsym
    revert s
    decide

/-- Witness for C8 at two concrete patients sharing the symptom `fever`
but differing in name, age and consent. -/
theorem C8_level_pure_in_symptom_witness :
    fallback_emergency_level ⟨none, some 20, some "fever", false⟩ =
      fallback_emergency_level ⟨some "B", some 80, some "fever", true⟩ :=
  (C8_level_pure_in_symptom ⟨none, some 20, some "fever", false⟩
    ⟨some "B", some 80, some "fever", true⟩ rfl).1

theorem lookup_map_replace (l : Store) (k : String) (v : Entry)
    (h : l.any (fun p => p.1 = k) = true) :
    (l.map (fun p => if p.1 = k then (k, v) else p)).lookup k = some v := by
  induction l with
  | nil => simp at h
  | cons p t ih =>
    obtain ⟨pk, pv⟩ := p
    rw [List.map_cons]
    by_cases hp : pk = k
    · rw [show (if (pk, pv).1 = k then (k, v) else (pk, pv)) = (k, v) from if_pos hp]
      simp [List.lookup_cons]
    · rw [show (if (pk, pv).1 = k then (k, v) else (pk, pv)) = (pk, pv) from if_neg hp]
      have hbeq : (k == pk) = false := beq_eq_false_iff_ne.mpr (Ne.symm hp)
      have ht : t.any (fun p => p.1 = k) = true := by
        simpa [List.any_cons, hp] using h
      simpa [List.lookup_cons, hbeq] using ih ht

theorem lookup_append_single (l : Store) (k : String) (v : Entry)
    (h : l.any (fun p => p.1 = k) = false) :
    (l ++ [(k, v)]).lookup k = some v := by
  induction l with
  | nil => simp [List.lookup_cons]
  | cons p t ih =>
    obtain ⟨pk, pv⟩ := p
    have hp : pk ≠ k := by
      intro e
      simp [List.any_cons, e] at h
    have hbeq : (k == pk) = false := beq_eq_false_iff_ne.mpr (Ne.symm hp)
    have ht : t.any (fun p => p.1 = k) = false := by
      simpa [List.any_cons, hp] using h
    rw [List.cons_append]
    simpa [List.lookup_cons, hbeq] using ih ht

/-- Python dict assignment: looking the key straight back up returns the
just-assigned value. -/
theorem dictGet_dictSet (store : Store) (k : String) (v : Entry) :
    dictGet (dictSet store k v) k = some v := by
  unfold dictGet dictSet
  by_cases h : store.any (fun p => p.1 = k) = true
  · rw [if_pos h]
    exact lookup_map_replace store k v h
  · rw [if_neg h]
    exact lookup_append_single store k v (Bool.eq_false_iff.mpr h)

/-- C3: the four outcomes of `verify_code`.  No entry for the contact →
not verified, "No verification code found", store unchanged; entry
expired (now strictly past expiry) → entry deleted, "Verification code
expired"; wrong code on a live entry → not verified, store unchanged
(retry allowed); right code on a live entry → verified, entry deleted. -/
theorem C3_verify_code_cases (store : Store) (now : Nat) (contact code : String) :
    (dictGet store contact = none →
      verify_code store now contact code =
        (⟨false, "No verification code found"⟩, store)) ∧
    (∀ e : Entry, dictGet store contact = some e →
      (now > e.expires →
        verify_code store now contact code =
          (⟨false, "Verification code expired"⟩, dictDel store contact)) ∧
      (now ≤ e.expires → e.code ≠ code →
        verify_code store now contact code =
          (⟨false, "Invalid verification code"⟩, store)) ∧
      (now ≤ e.expires → e.code = code →
        verify_code store now contact code =
          (⟨true, "Verification successful"⟩, dictDel store contact))) := by
  refine ⟨?_, ?_⟩
  · intro h
    simp [verify_code, h]
  · intro e he
    refine ⟨?_, ?_, ?_⟩
    · intro hexp
      simp [verify_code, he, hexp]
    · intro hlive hne
      rw [verify_code, he]
      simp only []
      rw [if_neg (by omega), if_neg hne]
    · intro hlive heq
      rw [verify_code, he]
      simp only []
      rw [if_neg (by omega), if_pos heq]

/-- Witness for C3: a store holding one live entry for `a@x.com`
(code 123456, expiring at minute 10); verifying the right code at
minute 5 succeeds and empties the store. -/
theorem C3_verify_code_cases_witness :
    verify_code [("a@x.com", ⟨"123456", 10, some none⟩)] 5 "a@x.com" "123456" =
      (⟨true, "Verification successful"⟩, []) := by
  have h := ((C3_verify_code_cases [("a@x.com", ⟨"123456", 10, some none⟩)]
    5 "a@x.com" "123456").2 ⟨"123456", 10, some none⟩ rfl).2.2 (by decide) rfl
  simpa [dictDel] using h

/-- The first components (dict keys) of the store. -/
def storeKeys (store : Store) : List String := store.map Prod.fst

theorem storeKeys_dictSet_nodup (store : Store) (k : String) (v : Entry)
    (h : (storeKeys store).Nodup) : (storeKeys (dictSet store k v)).Nodup := by
  unfold dictSet
  by_cases hk : store.any (fun p => p.1 = k) = true
  · rw [if_pos hk]
    have : storeKeys (store.map (fun p => if p.1 = k then (k, v) else p)) =
        storeKeys store := by
      unfold storeKeys
      rw [List.map_map]
      refine List.map_congr_left ?_
      intro p _
      by_cases hp : p.1 = k
      · simp [hp]
      · simp [hp]
    rwa [this]
  · rw [if_neg hk]
    have hnotmem : k ∉ storeKeys store := by
      intro hmem
      apply hk
      unfold storeKeys at hmem
      obtain ⟨p, hp, he⟩ := List.mem_map.mp hmem
      exact List.any_eq_true.mpr ⟨p, hp, by simp [he]⟩
    unfold storeKeys
    rw [List.map_append]
    simp only [List.map_cons, List.map_nil]
    refine List.Nodup.append h (List.nodup_singleton k) ?_
    intro a ha hb
    rw [List.mem_singleton] at hb
    subst hb
    exact hnotmem ha

theorem storeKeys_dictDel_nodup (store : Store) (k : String)
    (h : (storeKeys store).Nodup) : (storeKeys (dictDel store k)).Nodup :=
  ((List.filter_sublist store).map Prod.fst).nodup h

theorem storeKeys_applyOp_nodup (store : Store) (op : StoreOp)
    (h : (storeKeys store).Nodup) : (storeKeys (applyOp store op)).Nodup := by
  cases op with
  | send now contact code patientId =>
    exact storeKeys_dictSet_nodup store contact _ h
  | resend now contact code =>
    exact storeKeys_dictSet_nodup store contact _ h
  | verify now contact code =>
    unfold applyOp verify_code
    cases hget : dictGet store contact with
    | none =>
      simp only [hget]
      exact h
    | some e =>
      by_cases hexp : now > e.expires
      · simp only [hget, if_pos hexp]
        exact storeKeys_dictDel_nodup store contact h
      · by_cases heq : e.code = code
        · simp only [hget, if_neg hexp, if_pos heq]
          exact storeKeys_dictDel_nodup store contact h
        · simp only [hget, if_neg hexp, if_neg heq]
          exact h

/-- C7: starting from the empty `verification_codes` dict, any sequence
of send / resend / verify requests leaves the store with pairwise
distinct contact keys (at most one live entry per contact), and a send
for a contact installs exactly the fresh entry — code, expiry now + 10,
the request's patient id — as the entry the next lookup sees, whatever
was stored before. -/
theorem C7_store_unique_keys (ops : List StoreOp) :
    (storeKeys (runOps ops)).Nodup ∧
    ∀ (store : Store) (now : Nat) (contact code : String) (pid : Option String),
      dictGet (send_verification_code store now contact code pid) contact =
        some ⟨code, now + 10, some pid⟩ := by
  refine ⟨?_, ?_⟩
  · have main : ∀ (l : List StoreOp) (s : Store), (storeKeys s).Nodup →
        (storeKeys (l.foldl applyOp s)).Nodup := by
      intro l
      induction l with
      | nil => intro s hs; simpa using hs
      | cons op t ih =>
        intro s hs
        exact ih (applyOp s op) (storeKeys_applyOp_nodup s op hs)
    simpa [runOps] using main ops [] (by simp [storeKeys])
  · intro store now contact code pid
    exact dictGet_dictSet store contact _

/-- C10 counterexample: the entry `resend_code` creates carries no
patient id — on the empty store a resend for `a@x.com` stores exactly
`{'code': "123456", 'expires': 0 + 10}` with `patient_id` absent,
refuting "every entry created by send or by resend contains ... an
associated patient id". -/
theorem C10_resend_entry_has_no_patient_id :
    resend_code [] 0 "a@x.com" "123456" =
      [("a@x.com", { code := "123456", expires := 10, patient_id := none })] :=
  rfl

/-- C10 (amended): every entry created by `send_verification_code`
contains the generated code, expiry = issue time + 10 minutes, and the
request's patient id; every entry created by `resend_code` contains the
generated code and expiry = issue time + 10 minutes but no patient id
field. -/
theorem C10_entry_shape (store : Store) (now : Nat) (contact code : String)
    (patientId : Option String) :
    dictGet (send_verification_code store now contact code patientId) contact =
      some ⟨code, now + 10, some patientId⟩ ∧
    dictGet (resend_code store now contact code) contact =
      some ⟨code, now + 10, none⟩ :=
  ⟨dictGet_dictSet store contact _, dictGet_dictSet store contact _⟩

theorem np_random_randint_lt_nine (d : Nat) : np_random_randint 0 9 d < 9 := by
  unfold np_random_randint
  omega

theorem toString_digit_data (n : Nat) (h : n < 9) :
    (toString n).data = [Nat.digitChar n] ∧
    Nat.digitChar n ∈ (['0', '1', '2', '3', '4', '5', '6', '7', '8'] : List Char) := by
  interval_cases n <;> exact ⟨by decide, by decide⟩

theorem join_data (l : List String) :
    (String.join l).data = (l.map String.data).flatten := by
  have main : ∀ (t : List String) (acc : String),
      (t.foldl (fun r s => r ++ s) acc).data = acc.data ++ (t.map String.data).flatten := by
    intro t
    induction t with
    | nil => intro acc; simp
    | cons s u ih =>
      intro acc
      rw [List.foldl_cons, ih, List.map_cons, List.flatten_cons, String.data_append]
      simp
  simpa [String.join] using main l ""

theorem flatten_singletons {α β : Type} (f : α → β) (l : List α) :
    (l.map (fun x => [f x])).flatten = l.map f := by
  induction l with
  | nil => rfl
  | cons x t ih => simp [ih]

/-- The characters of a generated code: one decimal digit per draw,
each the digit of a value `np.random.randint(0, 9)` produces. -/
theorem gen_code_data (draws : Fin 6 → Nat) :
    (gen_code draws).data =
      (List.finRange 6).map (fun i => Nat.digitChar (np_random_randint 0 9 (draws i))) := by
  unfold gen_code
  rw [join_data, List.map_map]
  simp only [Function.comp_def]
  rw [List.map_congr_left (fun i _ =>
    (toString_digit_data _ (np_random_randint_lt_nine (draws i))).1)]
  exact flatten_singletons _ _

/-- C4: what line 80 (and line 398) actually generates.  Every code is a
string of exactly 6 characters, but each character lies in '0'..'8' —
the digit '9' can never occur, because `np.random.randint(0, 9)` excludes
its upper bound.  This refutes the claim that each character is a
uniformly random digit from 0 through 9 inclusive. -/
theorem C4_code_digits (draws : Fin 6 → Nat) :
    (gen_code draws).length = 6 ∧
    (∀ c ∈ (gen_code draws).data,
      c ∈ (['0', '1', '2', '3', '4', '5', '6', '7', '8'] : List Char)) ∧
    '9' ∉ (gen_code draws).data := by
  have hd := gen_code_data draws
  have hall : ∀ c ∈ (gen_code draws).data,
      c ∈ (['0', '1', '2', '3', '4', '5', '6', '7', '8'] : List Char) := by
    intro c hc
    rw [hd] at hc
    obtain ⟨i, _, rfl⟩ := List.mem_map.mp hc
    exact (toString_digit_data _ (np_random_randint_lt_nine (draws i))).2
  refine ⟨?_, hall, ?_⟩
  · show (gen_code draws).data.length = 6
    rw [hd, List.length_map, List.length_finRange]
  · intro h9
    have : ('9' : Char) ∈ (['0', '1', '2', '3', '4', '5', '6', '7', '8'] : List Char) :=
      hall _ h9
    exact absurd this (by decide)

/-- Witness for C4 at a concrete draw sequence: the maximal draws give
the code "888888". -/
theorem C4_code_digits_witness : gen_code (fun _ => 8) = "888888" := rfl

/-- C9: the Haversine distance from any point to itself is zero. -/
theorem C9_distance_self_zero (lat lon : ℝ) :
    calculate_distance lat lon lat lon = 0 := by
  have h1 : arctan2 0 1 = 0 := by
    unfold arctan2
    rw [if_pos (by norm_num : (0 : ℝ) < 1)]
    simp [Real.arctan_zero]
  unfold calculate_distance
  simp [sub_self, Real.sin_zero, Real.sqrt_zero, Real.sqrt_one, h1]

/-- The decode the claim describes (modelled from the claim's words, for
comparison): index the ordered table [LOW, MEDIUM, HIGH] with the
predicted class index clamped to the table's bounds, hence total. -/
def clamped_emergency_decode (pred : Int) : String :=
  emergency_levels.getD (min (max pred 0) ((emergency_levels.length : Int) - 1)).toNat ""

theorem emergencyBranch_ok_found (patient_data : PatientData) (pred : Int)
    (proba : List ℚ) (m : ℚ) (hm : proba.max? = some m) (lvl : String)
    (hl : pyListGet emergency_levels pred = some lvl) :
    emergencyBranch (some (.ok (pred, proba))) patient_data = (lvl, m) := by
  unfold emergencyBranch
  simp only [hl, hm]

theorem emergencyBranch_ok_oob (patient_data : PatientData) (pred : Int)
    (proba : List ℚ) (hl : pyListGet emergency_levels pred = none) :
    emergencyBranch (some (.ok (pred, proba))) patient_data =
      (fallback_emergency_level patient_data, 1/2) := by
  unfold emergencyBranch
  simp only [hl]

theorem pyListGet_emergency_oob (pred : Int) (h : 3 ≤ pred ∨ pred < -3) :
    pyListGet emergency_levels pred = none := by
  simp only [pyListGet, emergency_levels, List.length_cons, List.length_nil]
  by_cases hneg : pred < 0
  · rw [if_pos hneg]
    rcases h with h | h
    · exact absurd h (by omega)
    · rw [if_neg (by push_cast; omega)]
  · rw [if_neg hneg]
    rcases h with h | h
    · rw [if_pos (by omega)]
      refine List.get?_eq_none.mpr ?_
      simp only [List.length_cons, List.length_nil]
      omega
    · exact absurd h (by omega)

/-- C5 counterexample: for a patient with no recognised symptom and an
emergency model that succeeds with class index 3 (probability row
[0.9]), the source's decode `emergency_levels[3]` raises — it is not
clamped — so the orchestrator reports the fallback level LOW with
confidence 0.5, while the clamped decode the claim describes would give
HIGH. -/
theorem C5_unclamped_counterexample :
    pyListGet emergency_levels 3 = none ∧
    (get_ml_predictions ⟨some (.ok (3, [9/10])), none, none⟩
        ⟨none, none, none, false⟩).emergencyLevel = "LOW" ∧
    (get_ml_predictions ⟨some (.ok (3, [9/10])), none, none⟩
        ⟨none, none, none, false⟩).confidence = 1/2 ∧
    clamped_emergency_decode 3 = "HIGH" :=
  ⟨rfl, rfl, rfl, rfl⟩

/-- C5 (amended): when the emergency model's predict call succeeds with
class index `pred` and a nonempty probability row, the orchestrator
decodes `pred` by plain, unclamped Python indexing into
[LOW, MEDIUM, HIGH]: 0 ≤ pred < 3 picks the table entry (and the
reported confidence is the row's maximum), -3 ≤ pred < 0 wraps from the
end of the table, and any other index makes the lookup raise, after
which the caught exception routes to `fallback_emergency_level` with
confidence 0.5. -/
theorem C5_unclamped_decode (pd : PatientData) (pred : Int) (proba : List ℚ)
    (hp : proba ≠ []) :
    (0 ≤ pred → pred < 3 →
      (get_ml_predictions ⟨some (.ok (pred, proba)), none, none⟩ pd).emergencyLevel =
        emergency_levels.getD pred.toNat "" ∧
      (get_ml_predictions ⟨some (.ok (pred, proba)), none, none⟩ pd).confidence ∈ proba ∧
      ∀ q ∈ proba,
        q ≤ (get_ml_predictions ⟨some (.ok (pred, proba)), none, none⟩ pd).confidence) ∧
    (-3 ≤ pred → pred < 0 →
      (get_ml_predictions ⟨some (.ok (pred, proba)), none, none⟩ pd).emergencyLevel =
        emergency_levels.getD (pred + 3).toNat "") ∧
    (3 ≤ pred ∨ pred < -3 →
      (get_ml_predictions ⟨some (.ok (pred, proba)), none, none⟩ pd).emergencyLevel =
        fallback_emergency_level pd ∧
      (get_ml_predictions ⟨some (.ok (pred, proba)), none, none⟩ pd).confidence = 1/2) := by
  cases hm : proba.max? with
  | none => exact absurd (List.max?_eq_none_iff.mp hm) hp
  | some m =>
    have hmem : m ∈ proba := List.max?_mem (fun a b => max_choice a b) hm
    have hle : ∀ q ∈ proba, q ≤ m :=
      (List.max?_le_iff (fun a b c => max_le_iff) hm).mp le_rfl
    have inrange : ∀ (p : Int) (lvl : String),
        pyListGet emergency_levels p = some lvl →
        emergency_levels.getD p.toNat "" = lvl →
        (get_ml_predictions ⟨some (.ok (p, proba)), none, none⟩ pd).emergencyLevel =
          emergency_levels.getD p.toNat "" ∧
        (get_ml_predictions ⟨some (.ok (p, proba)), none, none⟩ pd).confidence ∈ proba ∧
        ∀ q ∈ proba,
          q ≤ (get_ml_predictions ⟨some (.ok (p, proba)), none, none⟩ pd).confidence := by
      intro p lvl hl hd
      have hf := emergencyBranch_ok_found pd p proba m hm lvl hl
      refine ⟨?_, ?_, ?_⟩
      · show (emergencyBranch (some (.ok (p, proba))) pd).1 =
          emergency_levels.getD p.toNat ""
        rw [hf, hd]
      · show (emergencyBranch (some (.ok (p, proba))) pd).2 ∈ proba
        rw [hf]
        exact hmem
      · intro q hq
        show q ≤ (emergencyBranch (some (.ok (p, proba))) pd).2
        rw [hf]
        exact hle q hq
    refine ⟨?_, ?_, ?_⟩
    · intro h0 h3
      interval_cases pred
      · exact inrange 0 "LOW" rfl rfl
      · exact inrange 1 "MEDIUM" rfl rfl
      · exact inrange 2 "HIGH" rfl rfl
    · intro hneg3 hneg
      interval_cases pred
      · show (emergencyBranch (some (.ok ((-3 : Int), proba))) pd).1 =
          emergency_levels.getD ((-3 : Int) + 3).toNat ""
        rw [emergencyBranch_ok_found pd (-3) proba m hm "LOW" (by decide)]
        exact rfl
      · show (emergencyBranch (some (.ok ((-2 : Int), proba))) pd).1 =
          emergency_levels.getD ((-2 : Int) + 3).toNat ""
        rw [emergencyBranch_ok_found pd (-2) proba m hm "MEDIUM" (by decide)]
        exact rfl
      · show (emergencyBranch (some (.ok ((-1 : Int), proba))) pd).1 =
          emergency_levels.getD ((-1 : Int) + 3).toNat ""
        rw [emergencyBranch_ok_found pd (-1) proba m hm "HIGH" (by decide)]
        exact rfl
    · intro hoob
      have hnone := pyListGet_emergency_oob pred hoob
      have hf := emergencyBranch_ok_oob pd pred proba hnone
      refine ⟨?_, ?_⟩
      · show (emergencyBranch (some (.ok (pred, proba))) pd).1 =
          fallback_emergency_level pd
        rw [hf]
      · show (emergencyBranch (some (.ok (pred, proba))) pd).2 = 1/2
        rw [hf]

/-- Witness for C5 (amended) at class index 1 with probability row
[0.3, 0.6]: the decode picks MEDIUM. -/
theorem C5_unclamped_decode_witness :
    (get_ml_predictions ⟨some (.ok (1, [3/10, 6/10])), none, none⟩
        ⟨none, none, none, false⟩).emergencyLevel = "MEDIUM" := by
  have h := (C5_unclamped_decode ⟨none, none, none, false⟩ 1 [3/10, 6/10]
    (List.cons_ne_nil _ _)).1 (by norm_num) (by norm_num)
  exact h.1.trans rfl

end HealthApp
